import Mathlib

/-!
# Verification of the Sports Drop leaderboard backend

Shallow embedding of `src/server.js` (Express route handlers) together with
the Supabase schema appended to that file (the `leaderboard` table, its CHECK
constraints, and the `keep_best_score` AFTER INSERT trigger).

Modelling conventions:
* JSON request-body values are modelled by `JValue` (JS `typeof`/truthiness
  distinctions that the handlers test are preserved).
* The store is a list of rows plus the next value of the `BIGSERIAL` id.
* Timestamps are abstract naturals (`created_at DEFAULT NOW()`).
* A Supabase query resolves with a `{data, error}` pair and does not throw;
  handlers that run `if (error) throw error` are modelled by propagating the
  failure, and handlers that ignore the `error` field (as `GET /api/stats`
  does) are modelled reading only the data field.
-/

namespace SportsDrop

/-- A JSON value as delivered by `express.json()`, refined just enough to
decide the JS `typeof`, `Number.isInteger` and truthiness tests that the
handlers perform.  `int` is a JS number whose value is an integer,
`nonIntNum` a JS number that is not (`Number.isInteger` false). -/
inductive JValue where
  | str (s : String)
  | int (n : Int)
  | nonIntNum
  | bool (b : Bool)
  | null
  | undef
  | obj
deriving DecidableEq, Repr

/-- JS truthiness (`!v` is the negation of this).  `nonIntNum` stands for a
non-integral number; we take it truthy (the NaN case is falsy in JS, but a
NaN name is equally rejected by the `typeof` check, and a NaN score by the
`Number.isInteger` check, so the distinction is unobservable here). -/
def JValue.truthy : JValue → Bool
  | .str s => !s.isEmpty
  | .int n => n != 0
  | .nonIntNum => true
  | .bool b => b
  | .null => false
  | .undef => false
  | .obj => true

/-- `typeof v === "string"`. -/
def JValue.isString : JValue → Bool
  | .str _ => true
  | _ => false

/-- `typeof v === "number"`. -/
def JValue.isNumber : JValue → Bool
  | .int _ => true
  | .nonIntNum => true
  | _ => false

/-- `Number.isInteger(v)`. -/
def JValue.isInt : JValue → Bool
  | .int _ => true
  | _ => false

/-- The string payload of a `JValue` (only read where the code has already
checked `typeof name === "string"`). -/
def JValue.strVal : JValue → String
  | .str s => s
  | _ => ""

/-- The integer payload of a `JValue` (only read where the code has already
checked `Number.isInteger(score)`). -/
def JValue.intVal : JValue → Int
  | .int n => n
  | _ => 0

/-- The character class trimmed by JS `String.prototype.trim`: ASCII
whitespace, the line terminators, NBSP, BOM, and the Unicode line/paragraph
separators (further `Zs` code points exist but are elided; every input in
this development is ASCII). -/
def jsWhitespace (c : Char) : Bool :=
  c == ' ' || c == '\t' || c == '\n' || c == '\r' ||
  c == '\u000B' || c == '\u000C' || c == '\u00A0' || c == '\uFEFF' ||
  c == '\u2028' || c == '\u2029'

/-- `name.trim()`: remove leading and trailing whitespace. -/
def jsTrim (s : String) : String :=
  ⟨(((s.data.dropWhile jsWhitespace).reverse.dropWhile jsWhitespace).reverse)⟩

/-- One row of `public.leaderboard`:
`id BIGSERIAL, name TEXT, score INTEGER, created_at TIMESTAMPTZ`. -/
structure Row where
  id : Nat
  name : String
  score : Int
  created_at : Nat
deriving DecidableEq, Repr

/-- The leaderboard table plus the `BIGSERIAL` sequence state. -/
structure Store where
  rows : List Row
  nextId : Nat
deriving DecidableEq, Repr

/-- The empty store as created by the setup script (`BIGSERIAL` starts at 1). -/
def Store.empty : Store := ⟨[], 1⟩

/-- Well-formedness maintained by the `BIGSERIAL` sequence: every existing
row's id is below the next id to be assigned. -/
def Store.wf (st : Store) : Prop := ∀ r ∈ st.rows, r.id < st.nextId

instance (st : Store) : Decidable st.wf := by
  unfold Store.wf; infer_instance

/-- The table's CHECK constraints:
`char_length(name) BETWEEN 1 AND 20` and `score >= 0 AND score <= 999999`. -/
def rowCheck (name : String) (score : Int) : Bool :=
  1 ≤ name.length && name.length ≤ 20 && 0 ≤ score && score ≤ 999999

/-- The retention predicate of the `keep_best_score` trigger: a row `r`
survives the pass fired by `newRow` unless
`r.name = NEW.name AND r.score < NEW.score AND r.id != NEW.id`. -/
def keptBy (newRow r : Row) : Bool :=
  !(r.name == newRow.name && r.score < newRow.score && r.id != newRow.id)

/-- `INSERT INTO leaderboard (name, score)` followed by the
`after_score_insert` trigger (`keep_best_score`, which runs AFTER INSERT on
the table already containing the new row).  Fails (`none`) when a CHECK
constraint is violated; otherwise returns the inserted row (as
`.select(...).single()` echoes it) and the settled store. -/
def insertRow (st : Store) (name : String) (score : Int) (now : Nat) :
    Option (Row × Store) :=
  if rowCheck name score then
    let newRow : Row := ⟨st.nextId, name, score, now⟩
    some (newRow, ⟨(st.rows ++ [newRow]).filter (keptBy newRow), st.nextId + 1⟩)
  else
    none

/-- `name.trim().replace(/[<>]/g, "")`'s second step: remove every `<` and
`>` character. -/
def sanitize (s : String) : String :=
  ⟨s.data.filter fun c => c != '<' && c != '>'⟩

/-- The name validation of `POST /api/scores`:
`!name || typeof name !== "string" || name.trim().length < 1 || name.trim().length > 20`
fails the request; this is the complement. -/
def nameValid (v : JValue) : Bool :=
  !(!v.truthy || !v.isString || (jsTrim v.strVal).length < 1 ||
    (jsTrim v.strVal).length > 20)

/-- The score validation of `POST /api/scores`:
`typeof score !== "number" || !Number.isInteger(score) || score < 0 || score > 999999`
fails the request; this is the complement. -/
def scoreValid (v : JValue) : Bool :=
  !(!v.isNumber || !v.isInt || v.intVal < 0 || v.intVal > 999999)

/-- Responses of the `POST /api/scores` handler. -/
inductive SubmitResp where
  | invalidName          -- 400 {error: "Name must be 1–20 characters"}
  | invalidScore         -- 400 {error: "Invalid score"}
  | created (entry : Row) -- 201 {success: true, entry}
  | saveError            -- 500 {error: "Could not save score"}
deriving DecidableEq, Repr

/-- The HTTP status code of a `POST /api/scores` response. -/
def SubmitResp.status : SubmitResp → Nat
  | .invalidName => 400
  | .invalidScore => 400
  | .created _ => 201
  | .saveError => 500

/-- Outcome of one `POST /api/scores` request: the response, the store after
the request, and whether the handler issued a store call at all. -/
structure SubmitOutcome where
  resp : SubmitResp
  store : Store
  storeCalled : Bool
deriving DecidableEq, Repr

/-- The `POST /api/scores` handler: validate name, then score (in that
order, short-circuiting, before any store call), sanitize the trimmed name,
insert, and either echo the persisted entry with 201 or answer 500 when the
store rejects the write. -/
def submitScore (name score : JValue) (st : Store) (now : Nat) :
    SubmitOutcome :=
  if !nameValid name then
    ⟨.invalidName, st, false⟩
  else if !scoreValid score then
    ⟨.invalidScore, st, false⟩
  else
    let cleanName := sanitize (jsTrim name.strVal)
    match insertRow st cleanName score.intVal now with
    | some (row, st') => ⟨.created row, st', true⟩
    | none => ⟨.saveError, st, true⟩

/-- The descending-score ordering used by `order("score", {ascending:false})`. -/
def scoreDesc (a b : Row) : Prop := b.score ≤ a.score

instance : DecidableRel scoreDesc := fun a b => by
  unfold scoreDesc; infer_instance

instance : IsTotal Row scoreDesc := ⟨fun a b => le_total b.score a.score⟩

instance : IsTrans Row scoreDesc :=
  ⟨fun _ _ _ h h' => le_trans h' h⟩

/-- `GET /api/scores`: `order("score", {ascending:false}).limit(20)`.
Descending order by score; the tie order among equal scores is the store's
natural retrieval order, modelled by a stable sort. -/
def listTopScores (st : Store) : List Row :=
  (List.insertionSort scoreDesc st.rows).take 20

/-- The `{data, error}` shape in which a Supabase query resolves (the client
reports query failures in `error` rather than throwing). -/
structure QueryResult (α : Type) where
  data : Option α
  error : Option String
deriving DecidableEq, Repr

/-- The `score,name` projection selected by the stats top-score query. -/
structure TopRow where
  score : Int
  name : String
deriving DecidableEq, Repr

/-- `select("*", {count: "exact", head: true})`: the exact row count, or a
failure when the store call fails. -/
def countQuery (st : Store) (fail : Bool) : QueryResult Nat :=
  if fail then ⟨none, some "connection error"⟩
  else ⟨some st.rows.length, none⟩

/-- `select("score,name").order("score",{ascending:false}).limit(1).single()`:
the highest-scoring row; `.single()` resolves with an error (and no data)
when the table is empty, as it does when the store call fails. -/
def topQuery (st : Store) (fail : Bool) : QueryResult TopRow :=
  if fail then ⟨none, some "connection error"⟩
  else
    match listTopScores st with
    | [] => ⟨none, some "PGRST116: JSON object requested, no rows returned"⟩
    | r :: _ => ⟨some ⟨r.score, r.name⟩, none⟩

/-- Responses of the `GET /api/stats` handler. -/
inductive StatsResp where
  | ok (totalGames : Nat) (allTimeHigh : Option TopRow) -- 200
  | unavailable                                         -- 500 {error: "Stats unavailable"}
deriving DecidableEq, Repr

/-- The `GET /api/stats` handler.  It destructures only `count` and `data`
from the two query results and never inspects their `error` fields; since the
client resolves failures instead of throwing, the `catch` branch (the
`unavailable` response) is unreachable on query failure, and the handler
answers `count || 0` and `top || null`. -/
def getStats (st : Store) (countFail topFail : Bool) : StatsResp :=
  let count := (countQuery st countFail).data
  let top := (topQuery st topFail).data
  .ok (count.getD 0) top

/-- The three configuration values read from the environment; `none` models
an unset variable, `some ""` a set-but-empty one (both are falsy in JS). -/
structure Env where
  supabaseUrl : Option String
  supabaseAnonKey : Option String
  supabaseServiceRoleKey : Option String
deriving DecidableEq, Repr

/-- JS truthiness of `process.env.X` (a string or `undefined`). -/
def envTruthy : Option String → Bool
  | none => false
  | some s => !s.isEmpty

/-- Responses of the `GET /api/config` handler. -/
inductive ConfigResp where
  | ok (supabaseUrl supabaseKey : String) -- 200
  | unavailable                           -- 503 {error: "Server not configured"}
deriving DecidableEq, Repr

/-- The `GET /api/config` handler: 503 when `SUPABASE_URL` or
`SUPABASE_ANON_KEY` is falsy, otherwise the URL and the anon key. -/
def getConfig (env : Env) : ConfigResp :=
  if !envTruthy env.supabaseUrl || !envTruthy env.supabaseAnonKey then
    .unavailable
  else
    .ok (env.supabaseUrl.getD "") (env.supabaseAnonKey.getD "")

/-- The `GET /health` response body: a status string, a timestamp, and one
boolean per configuration value. -/
structure HealthResp where
  status : String
  ts : Nat
  envSupabase : Bool
  envAnonKey : Bool
  envSvcKey : Bool
deriving DecidableEq, Repr

/-- The `GET /health` handler: reports only the truthiness of each
configuration value. -/
def health (env : Env) (ts : Nat) : HealthResp :=
  ⟨"ok", ts,
    envTruthy env.supabaseUrl,
    envTruthy env.supabaseAnonKey,
    envTruthy env.supabaseServiceRoleKey⟩

/-! ## Helper lemmas about the write path -/

/-- Inversion of a successful insert: the CHECK constraints held, the echoed
row is the freshly numbered one, and the settled store is the retention
filter over the table including the new row. -/
theorem insertRow_some {st : Store} {name : String} {score : Int} {now : Nat}
    {row : Row} {st' : Store}
    (h : insertRow st name score now = some (row, st')) :
    rowCheck name score = true ∧ row = ⟨st.nextId, name, score, now⟩ ∧
    st' = ⟨(st.rows ++ [row]).filter (keptBy row), st.nextId + 1⟩ := by
  unfold insertRow at h
  split at h
  · rename_i hchk
    simp only [Option.some.injEq, Prod.mk.injEq] at h
    obtain ⟨hrow, hst⟩ := h
    subst hrow
    exact ⟨hchk, rfl, hst.symm⟩
  · exact absurd h (by simp)

/-- The retention pass never removes the row that fired it. -/
theorem keptBy_self (r : Row) : keptBy r r = true := by
  simp [keptBy]

/-- The newly inserted row is in the settled store. -/
theorem insertRow_mem_self {st : Store} {name : String} {score : Int}
    {now : Nat} {row : Row} {st' : Store}
    (h : insertRow st name score now = some (row, st')) :
    row ∈ st'.rows := by
  obtain ⟨-, -, hst⟩ := insertRow_some h
  subst hst
  exact List.mem_filter.mpr ⟨by simp, keptBy_self row⟩

/-- Sanitization only removes characters. -/
theorem sanitize_length_le (s : String) : (sanitize s).length ≤ s.length := by
  cases s with
  | mk data => exact List.length_filter_le _ data

/-- Trimming the empty string gives the empty string. -/
theorem jsTrim_empty : jsTrim "" = "" := rfl

/-- The name validation on a string input, characterized: the string is
truthy (nonempty) and its trimmed — but unsanitized — length lies in
`[1, 20]`. -/
theorem nameValid_str (s : String) :
    nameValid (.str s) = true ↔
      s ≠ "" ∧ 1 ≤ (jsTrim s).length ∧ (jsTrim s).length ≤ 20 := by
  simp only [nameValid, JValue.truthy, JValue.isString, JValue.strVal,
    Bool.not_eq_true', Bool.or_eq_false_iff, Bool.not_eq_false,
    decide_eq_false_iff_not, Nat.not_lt]
  constructor
  · rintro ⟨⟨⟨h1, -⟩, h2⟩, h3⟩
    refine ⟨?_, h2, h3⟩
    intro he
    subst he
    exact absurd h1 (by decide)
  · rintro ⟨h1, h2, h3⟩
    refine ⟨⟨⟨?_, by decide⟩, h2⟩, h3⟩
    cases hb : s.isEmpty
    · rfl
    · exact absurd ((String.isEmpty_iff s).mp hb) h1

/-! ## The claims -/

/-- C2: after each insert of `(name, score)` settles, every pre-existing row
with the same name and a strictly lower score has been deleted by the
retention trigger, and every row with the same name and an equal or higher
score survives; concretely, submitting `("Alice", 50)` then `("Alice", 80)`
leaves exactly one row for Alice, at score 80, while submitting
`("Alice", 80)` then `("Alice", 50)` leaves both rows. -/
theorem retention_trigger_spec :
    (∀ (st : Store) (name : String) (score : Int) (now : Nat)
        (row : Row) (st' : Store), st.wf →
      insertRow st name score now = some (row, st') →
      (∀ r ∈ st.rows, r.name = name → r.score < score → r ∉ st'.rows) ∧
      (∀ r ∈ st.rows, r.name = name → score ≤ r.score → r ∈ st'.rows)) ∧
    (submitScore (.str "Alice") (.int 80)
        (submitScore (.str "Alice") (.int 50) Store.empty 10).store 11).store.rows =
      [⟨2, "Alice", 80, 11⟩] ∧
    (submitScore (.str "Alice") (.int 50)
        (submitScore (.str "Alice") (.int 80) Store.empty 10).store 11).store.rows =
      [⟨1, "Alice", 80, 10⟩, ⟨2, "Alice", 50, 11⟩] := by
  refine ⟨?_, by decide, by decide⟩
  intro st name score now row st' hwf h
  obtain ⟨-, hrow, hst⟩ := insertRow_some h
  subst hrow
  subst hst
  constructor
  · intro r hr hname hscore hmem
    have hkept := (List.mem_filter.mp hmem).2
    have hlt := hwf r hr
    simp [keptBy, hname, hscore] at hkept
    omega
  · intro r hr hname hscore
    refine List.mem_filter.mpr ⟨by simp [hr], ?_⟩
    simp [keptBy, hname]
    omega

/-- Witness for C2: inserting `("Alice", 50)` into a store holding
`("Alice", 30)` deletes the 30-point row. -/
theorem retention_trigger_spec_witness :
    (⟨1, "Alice", 30, 0⟩ : Row) ∉ (⟨[⟨2, "Alice", 50, 5⟩], 3⟩ : Store).rows :=
  (retention_trigger_spec.1 ⟨[⟨1, "Alice", 30, 0⟩], 2⟩ "Alice" 50 5
      ⟨2, "Alice", 50, 5⟩ ⟨[⟨2, "Alice", 50, 5⟩], 3⟩ (by decide) (by decide)).1
    ⟨1, "Alice", 30, 0⟩ (by decide) rfl (by decide)

/-- C1 fails as stated: the name `"<>"` is a string of trimmed length 2
(within `[1, 20]`) and the score 0 is in range, yet `POST /api/scores`
answers 500 (the sanitized name is empty and violates the store's CHECK
constraint) and persists nothing, instead of the claimed 201. -/
theorem submit_valid_counterexample :
    1 ≤ (jsTrim "<>").length ∧ (jsTrim "<>").length ≤ 20 ∧
    submitScore (.str "<>") (.int 0) Store.empty 0 =
      ⟨.saveError, Store.empty, true⟩ ∧
    SubmitResp.saveError.status = 500 := by decide

/-- C1, amended: for every submission whose name is a string with trimmed
length in `[1, 20]` *and whose sanitized trimmed name is nonempty*, and
whose score is an integer in `[0, 999999]`, `POST /api/scores` answers 201
echoing the persisted entry, with the server-assigned id and timestamp. -/
theorem submit_valid_succeeds :
    ∀ (s : String) (n : Int) (st : Store) (now : Nat),
      1 ≤ (jsTrim s).length → (jsTrim s).length ≤ 20 →
      0 ≤ n → n ≤ 999999 →
      1 ≤ (sanitize (jsTrim s)).length →
      ∃ row st',
        submitScore (.str s) (.int n) st now = ⟨.created row, st', true⟩ ∧
        (SubmitResp.created row).status = 201 ∧
        row ∈ st'.rows ∧
        row = ⟨st.nextId, sanitize (jsTrim s), n, now⟩ := by
  intro s n st now h1 h2 h3 h4 h5
  have hs : s ≠ "" := by
    intro he
    subst he
    rw [jsTrim_empty] at h1
    exact absurd h1 (by decide)
  have hname : nameValid (.str s) = true := (nameValid_str s).mpr ⟨hs, h1, h2⟩
  have hscore : scoreValid (.int n) = true := by
    simp [scoreValid, JValue.isNumber, JValue.isInt, JValue.intVal]
    omega
  have hchk : rowCheck (sanitize (jsTrim s)) n = true := by
    have hle := sanitize_length_le (jsTrim s)
    simp [rowCheck]
    omega
  have hins : insertRow st (sanitize (jsTrim s)) n now =
      some (Row.mk st.nextId (sanitize (jsTrim s)) n now,
        Store.mk
          ((st.rows ++ [Row.mk st.nextId (sanitize (jsTrim s)) n now]).filter
            (keptBy (Row.mk st.nextId (sanitize (jsTrim s)) n now)))
          (st.nextId + 1)) := by
    simp [insertRow, hchk]
  refine ⟨Row.mk st.nextId (sanitize (jsTrim s)) n now,
    Store.mk
      ((st.rows ++ [Row.mk st.nextId (sanitize (jsTrim s)) n now]).filter
        (keptBy (Row.mk st.nextId (sanitize (jsTrim s)) n now)))
      (st.nextId + 1),
    ?_, rfl, insertRow_mem_self hins, rfl⟩
  simp [submitScore, hname, hscore, JValue.strVal, JValue.intVal, hins]

/-- Witness for the amended C1 at the submission `("Bob", 7)`. -/
theorem submit_valid_succeeds_witness :
    ∃ row st',
      submitScore (.str "Bob") (.int 7) Store.empty 3 = ⟨.created row, st', true⟩ ∧
      (SubmitResp.created row).status = 201 ∧
      row ∈ st'.rows ∧
      row = ⟨Store.empty.nextId, sanitize (jsTrim "Bob"), 7, 3⟩ :=
  submit_valid_succeeds "Bob" 7 Store.empty 3
    (by decide) (by decide) (by decide) (by decide) (by decide)

/-- C3: `POST /api/scores` validates the name, then the score, in order and
short-circuiting, before any store call: an invalid name yields the 400 name
error with the store untouched and uncontacted; a valid name with an invalid
score yields the 400 score error likewise; the store is contacted exactly
when both checks pass. -/
theorem submit_validation_order :
    ∀ (name score : JValue) (st : Store) (now : Nat),
      (nameValid name = false →
        submitScore name score st now = ⟨.invalidName, st, false⟩) ∧
      (nameValid name = true → scoreValid score = false →
        submitScore name score st now = ⟨.invalidScore, st, false⟩) ∧
      (nameValid name = true → scoreValid score = true →
        (submitScore name score st now).storeCalled = true) ∧
      SubmitResp.invalidName.status = 400 ∧
      SubmitResp.invalidScore.status = 400 := by
  intro name score st now
  refine ⟨?_, ?_, ?_, rfl, rfl⟩
  · intro h
    simp [submitScore, h]
  · intro h1 h2
    simp [submitScore, h1, h2]
  · intro h1 h2
    simp only [submitScore, h1, h2, Bool.not_true, Bool.false_eq_true,
      if_false]
    split <;> rfl

/-- Witness for C3: a numeric name is rejected as a name error, a string
score as a score error (each with the store untouched), and a fully valid
request reaches the store. -/
theorem submit_validation_order_witness :
    submitScore (.int 5) (.int 3) Store.empty 0 =
      ⟨.invalidName, Store.empty, false⟩ ∧
    submitScore (.str "Bo") (.str "x") Store.empty 0 =
      ⟨.invalidScore, Store.empty, false⟩ ∧
    (submitScore (.str "Bo") (.int 3) Store.empty 0).storeCalled = true :=
  ⟨(submit_validation_order (.int 5) (.int 3) Store.empty 0).1 (by decide),
   (submit_validation_order (.str "Bo") (.str "x") Store.empty 0).2.1
     (by decide) (by decide),
   (submit_validation_order (.str "Bo") (.int 3) Store.empty 0).2.2.1
     (by decide) (by decide)⟩

/-- C4: every entry the write path persists carries the trimmed input name
with all `<` and `>` characters removed, while the length validation reads
the trimmed but unsanitized string; in particular `"<b>Bob</b>"` passes
validation and persists as `"bBob/b"`. -/
theorem sanitize_after_validation :
    (∀ (name score : JValue) (st : Store) (now : Nat) (e : Row),
      (submitScore name score st now).resp = .created e →
      e.name = sanitize (jsTrim name.strVal)) ∧
    (∀ s : String, nameValid (.str s) = true ↔
      s ≠ "" ∧ 1 ≤ (jsTrim s).length ∧ (jsTrim s).length ≤ 20) ∧
    nameValid (.str "<b>Bob</b>") = true ∧
    (submitScore (.str "<b>Bob</b>") (.int 42) Store.empty 7).resp =
      .created ⟨1, "bBob/b", 42, 7⟩ := by
  refine ⟨?_, fun s => nameValid_str s, by decide, by decide⟩
  intro name score st now e h
  simp only [submitScore] at h
  split at h
  · exact absurd h (by simp)
  · split at h
    · exact absurd h (by simp)
    · split at h
      · rename_i row st' heq
        obtain ⟨-, hrow, -⟩ := insertRow_some heq
        simp only [SubmitResp.created.injEq] at h
        rw [← h, hrow]
      · exact absurd h (by simp)

/-- Witness for C4 at the submission `("<b>Bob</b>", 42)`. -/
theorem sanitize_after_validation_witness :
    (⟨1, "bBob/b", 42, 7⟩ : Row).name =
      sanitize (jsTrim (JValue.str "<b>Bob</b>").strVal) :=
  sanitize_after_validation.1 (.str "<b>Bob</b>") (.int 42) Store.empty 7
    ⟨1, "bBob/b", 42, 7⟩ (by decide)

/-- C10: the retention trigger never deletes the row whose insert fired it
(`id != NEW.id` guard): after every successful insert the new row is present
in the settled store. -/
theorem trigger_preserves_new_row :
    ∀ (st : Store) (name : String) (score : Int) (now : Nat)
      (row : Row) (st' : Store),
      insertRow st name score now = some (row, st') → row ∈ st'.rows := by
  intro st name score now row st' h
  exact insertRow_mem_self h

/-- Witness for C10: inserting `("Alice", 80)` when a different row with the
same name and the same score exists keeps the new row (and the old one). -/
theorem trigger_preserves_new_row_witness :
    (⟨2, "Alice", 80, 1⟩ : Row) ∈
      (⟨[⟨1, "Alice", 80, 0⟩, ⟨2, "Alice", 80, 1⟩], 3⟩ : Store).rows :=
  trigger_preserves_new_row ⟨[⟨1, "Alice", 80, 0⟩], 2⟩ "Alice" 80 1
    ⟨2, "Alice", 80, 1⟩ ⟨[⟨1, "Alice", 80, 0⟩, ⟨2, "Alice", 80, 1⟩], 3⟩
    (by decide)

/-- C5 fails on the code: the `GET /api/stats` handler never inspects the
`error` fields of its two query results, so a failing store query does not
produce the 500 `Unavailable` response; with one stored row `("Alice", 50)`
and a failing count query the handler answers 200 with
`{totalGames: 0, allTimeHigh: {score: 50, name: "Alice"}}` — a fabricated
zero count next to a live high score — and no combination of query failures
ever reaches the `unavailable` branch. -/
theorem stats_ignores_query_errors :
    getStats ⟨[⟨1, "Alice", 50, 0⟩], 2⟩ true false =
      .ok 0 (some ⟨50, "Alice"⟩) ∧
    getStats ⟨[⟨1, "Alice", 50, 0⟩], 2⟩ true true = .ok 0 none ∧
    ∀ (st : Store) (countFail topFail : Bool),
      getStats st countFail topFail ≠ .unavailable := by
  refine ⟨by decide, by decide, ?_⟩
  intro st countFail topFail
  simp [getStats]

/-- C6: `GET /api/config` answers 503 with no credential whenever the store
URL or the anon key is absent (falsy), and otherwise returns exactly the
configured URL and anon key. -/
theorem config_requires_both :
    ∀ env : Env,
      ((envTruthy env.supabaseUrl = false ∨
          envTruthy env.supabaseAnonKey = false) →
        getConfig env = .unavailable) ∧
      (envTruthy env.supabaseUrl = true →
        envTruthy env.supabaseAnonKey = true →
        ∃ u k, env.supabaseUrl = some u ∧ env.supabaseAnonKey = some k ∧
          getConfig env = .ok u k) := by
  intro env
  constructor
  · intro h
    rcases h with h | h <;> simp [getConfig, h]
  · intro h1 h2
    obtain ⟨u, hu⟩ : ∃ u, env.supabaseUrl = some u := by
      cases hul : env.supabaseUrl
      · rw [hul] at h1
        exact absurd h1 (by decide)
      · exact ⟨_, rfl⟩
    obtain ⟨k, hk⟩ : ∃ k, env.supabaseAnonKey = some k := by
      cases hkl : env.supabaseAnonKey
      · rw [hkl] at h2
        exact absurd h2 (by decide)
      · exact ⟨_, rfl⟩
    rw [hu] at h1
    rw [hk] at h2
    exact ⟨u, k, hu, hk, by simp [getConfig, hu, hk, h1, h2]⟩

/-- Witness for C6: a missing anon key yields 503, and a fully configured
environment yields exactly the URL and the anon key. -/
theorem config_requires_both_witness :
    getConfig ⟨some "https://db.example", none, some "svc"⟩ = .unavailable ∧
    ∃ u k, (⟨some "https://db.example", some "anon", some "svc"⟩ : Env).supabaseUrl = some u ∧
      (⟨some "https://db.example", some "anon", some "svc"⟩ : Env).supabaseAnonKey = some k ∧
      getConfig ⟨some "https://db.example", some "anon", some "svc"⟩ = .ok u k :=
  ⟨(config_requires_both ⟨some "https://db.example", none, some "svc"⟩).1
      (Or.inr (by decide)),
   (config_requires_both ⟨some "https://db.example", some "anon", some "svc"⟩).2
      (by decide) (by decide)⟩

/-- C7: `GET /api/scores` returns at most 20 entries, sorted by score
descending (non-increasing), and exactly 20 whenever the table holds at
least 20 rows. -/
theorem listTopScores_spec :
    ∀ st : Store,
      (listTopScores st).length ≤ 20 ∧
      (listTopScores st).Sorted scoreDesc ∧
      (20 ≤ st.rows.length → (listTopScores st).length = 20) := by
  intro st
  refine ⟨?_, ?_, ?_⟩
  · simp [listTopScores]
  · exact List.Pairwise.sublist (List.take_sublist _ _)
      (List.sorted_insertionSort scoreDesc st.rows)
  · intro h
    simp [listTopScores, List.length_take, List.length_insertionSort]
    omega

/-- Witness for C7: a store with 25 rows yields exactly 20. -/
theorem listTopScores_spec_witness :
    (listTopScores
      ⟨(List.range 25).map (fun i => ⟨i + 1, "p", (i : Int), 0⟩), 26⟩).length =
      20 :=
  (listTopScores_spec
      ⟨(List.range 25).map (fun i => ⟨i + 1, "p", (i : Int), 0⟩), 26⟩).2.2
    (by simp)

/-- C8: on an empty table with the store reachable, `GET /api/stats`
answers `{totalGames: 0, allTimeHigh: null}`. -/
theorem stats_empty_table :
    ∀ st : Store, st.rows = [] → getStats st false false = .ok 0 none := by
  intro st h
  simp [getStats, countQuery, topQuery, listTopScores, h]

/-- Witness for C8 at the empty store. -/
theorem stats_empty_table_witness :
    getStats Store.empty false false = .ok 0 none :=
  stats_empty_table Store.empty rfl

/-- C9: no response body contains the service-role key's value.  The config
response is unchanged under any change of the service key, and the health
response depends on the service key only through its truthiness — so each
reveals at most a presence boolean, never the credential.  (No other route
reads the environment at all: `listTopScores`, `submitScore` and `getStats`
take no `Env`.) -/
theorem no_service_key_in_responses :
    ∀ (e₁ e₂ : Env) (ts : Nat),
      e₁.supabaseUrl = e₂.supabaseUrl →
      e₁.supabaseAnonKey = e₂.supabaseAnonKey →
      getConfig e₁ = getConfig e₂ ∧
      (envTruthy e₁.supabaseServiceRoleKey =
          envTruthy e₂.supabaseServiceRoleKey →
        health e₁ ts = health e₂ ts) := by
  intro e₁ e₂ ts h1 h2
  constructor
  · simp [getConfig, h1, h2]
  · intro h3
    simp [health, h1, h2, h3]

/-- Witness for C9: two environments differing only in the service-role
secret produce identical config and health responses. -/
theorem no_service_key_in_responses_witness :
    getConfig ⟨some "u", some "k", some "SECRET-A"⟩ =
      getConfig ⟨some "u", some "k", some "SECRET-B"⟩ ∧
    health ⟨some "u", some "k", some "SECRET-A"⟩ 0 =
      health ⟨some "u", some "k", some "SECRET-B"⟩ 0 := by
  have h := no_service_key_in_responses
    ⟨some "u", some "k", some "SECRET-A"⟩
    ⟨some "u", some "k", some "SECRET-B"⟩ 0 rfl rfl
  exact ⟨h.1, h.2 (by decide)⟩

end SportsDrop
